import Mathlib

/-!
# Verification of the `trek-rs/sessions` session core

Shallow embedding of the repository's session layer:

* `sessions-core/src/session.rs` — the `Session` entity: id, status machine
  (0 = Created, 1 = Saved, 2 = Renewed, 3 = Destroyed), dirty flag
  (`data_status`), data container, and the operations
  `get/set/remove/clear/save/renew/destroy`.
* `src/memory_store.rs` — the in-memory `Storable` backend's `get` (load).

Rust's `HashMap<String, Value>` data container is modelled as an association
list observed only through key lookup; `insert`/`remove` are defined through
`lookup` and `filter`, which agrees with the hash-map semantics (at most one
binding per key) on every observable.  serde_json values are modelled by a
JSON-like inductive `Value`; typed (de)serialization (`to_value`/`from_value`
for a Rust type `T`) is modelled by a `Codec` record of two partial functions.
The asynchronous `Storage` backend reached through `Config`
(`config.set`/`config.remove`/`config.generate`, whose implementation is not
part of the sources) is modelled by explicit parameters: a success flag for
the fallible call and a generated id, and each lifecycle operation returns
the list of backend calls it issued, so "performs no Storage call" is the
emptiness of that trace.  Locks (`RwLock` poisoning) are modelled as always
succeeding; lock failure is orthogonal to every property treated here.
-/

/-- A structured value, mirroring `serde_json::Value`. -/
inductive Value where
  | null : Value
  | bool : Bool → Value
  | num : Int → Value
  | str : String → Value
  | arr : List Value → Value
  | obj : List (String × Value) → Value

/-- The data container: `Data = Map<String, Value>` from `sessions-core/src/data.rs`,
modelled as an association list with at most one binding per key. -/
abbrev Data := List (String × Value)

/-- First-match association-list lookup (the observation of `HashMap::get`). -/
def alookup {α : Type} : List (String × α) → String → Option α
  | [], _ => none
  | (k', v) :: rest, k => if k' = k then some v else alookup rest k

/-- Drops every binding of key `k` from an association list. -/
def eraseAll {α : Type} : List (String × α) → String → List (String × α)
  | [], _ => []
  | (k', v) :: rest, k => if k' = k then eraseAll rest k else (k', v) :: eraseAll rest k

/-- `HashMap::insert`: stores `v` under `k` and returns the previous binding.
The new list drops any old binding of `k` and appends the new one. -/
def Data.insert (d : Data) (k : String) (v : Value) : Option Value × Data :=
  (alookup d k, eraseAll d k ++ [(k, v)])

/-- `HashMap::remove`: deletes the binding of `k` and returns it. -/
def Data.eraseKey (d : Data) (k : String) : Option Value × Data :=
  (alookup d k, eraseAll d k)

/-- Typed (de)serialization boundary for a Rust type `T`:
`enc` models `serde_json::to_value` (may fail), `dec` models
`serde_json::from_value` (may fail — a failed decode is `none`). -/
structure Codec (T : Type) where
  enc : T → Option Value
  dec : Value → Option T

/-- The codec of `serde_json::Value` itself: both directions are the identity. -/
def valueCodec : Codec Value :=
  ⟨fun v => some v, fun v => some v⟩

/-- The codec of an integer type such as `i64`. -/
def intCodec : Codec Int :=
  ⟨fun n => some (Value.num n), fun v => match v with | Value.num n => some n | _ => none⟩

/-- A codec whose encode and decode always fail, exercising the failure paths. -/
def failCodec : Codec Unit :=
  ⟨fun _ => none, fun _ => none⟩

/-- `Config` as consumed by `Session` (`sessions-core`): the session only reads
`max_age()` from it; the `Storage` plumbing behind `config.set/remove/generate`
is modelled by explicit parameters of the lifecycle operations. `maxAge` is in
seconds (`Duration`). -/
structure Config where
  maxAge : Nat

/-- The default max-age from `CookieOptions::new`: 24 hours. -/
def Config.default24h : Config := ⟨3600 * 24⟩

/-- The `Session` struct of `sessions-core/src/session.rs`:
`status` is the atomic status counter (0 inited/Created, 1 saved, 2 renewed,
3 destroyed), `data_status` the atomic dirty flag, `data` the `RwLock<Data>`
content. -/
structure Session where
  id : String
  status : Nat
  data_status : Bool
  data : Data
  config : Config

/-- `Session::new`: fresh data container, clean dirty flag. -/
def Session.new (id : String) (status : Nat) (config : Config) : Session :=
  { id := id, status := status, data_status := false, data := [], config := config }

/-- `Session::max_age`. -/
def Session.max_age (s : Session) : Nat :=
  s.config.maxAge

/-- `Session::get::<T>`: `from_value(self.data().ok()?.get(key).cloned()?).ok()` —
lookup, then decode, every failure collapsing to `none`. -/
def Session.get {T : Type} (c : Codec T) (s : Session) (key : String) : Option T :=
  (alookup s.data key).bind c.dec

/-- `Session::set::<T>`: encode the value (an encode failure returns `none`
before anything is touched), insert it, raise the dirty flag, and return the
previous binding decoded (a decode failure is `none`). -/
def Session.set {T : Type} (c : Codec T) (s : Session) (key : String) (val : T) :
    Option T × Session :=
  match c.enc val with
  | none => (none, s)
  | some ev =>
    let pd := s.data.insert key ev
    (pd.1.bind c.dec, { s with data := pd.2, data_status := true })

/-- `Session::remove::<T>`: `let prev = self.data_mut().ok()?.remove(key)?;` —
if the key is absent the `?` returns `none` *before* the dirty flag is stored,
and the map is unchanged; otherwise the flag is raised and the removed value
is returned decoded. -/
def Session.remove {T : Type} (c : Codec T) (s : Session) (key : String) :
    Option T × Session :=
  let pd := s.data.eraseKey key
  match pd.1 with
  | none => (none, s)
  | some pv => (c.dec pv, { s with data := pd.2, data_status := true })

/-- `Session::clear`: empties the container and raises the dirty flag. -/
def Session.clear (s : Session) : Session :=
  { s with data := [], data_status := true }

/-- A call issued to the `Storage` backend (through `Config`). -/
inductive StorageCall where
  | setCall (id : String) (data : Data) (maxAge : Nat) : StorageCall
  | removeCall (id : String) : StorageCall

/-- Outcome of a fallible session operation: `Result<()>`. -/
abbrev SessionResult := Except Unit Unit

/-- `Session::save`: `compare_and_swap(0, 1)` on the status — only the caller
that observed `0` snapshots the data and issues the backend `config.set`
(whose success is the `storeOk` parameter); every other caller returns `Ok`
at once with no backend call.  The status is never rolled back on a store
error.  Returns (result, session after, backend calls issued). -/
def Session.save (s : Session) (storeOk : Bool) :
    SessionResult × Session × List StorageCall :=
  if s.status = 0 then
    let s' := { s with status := 1 }
    if storeOk then
      (Except.ok (), s', [StorageCall.setCall s.id s.data s.max_age])
    else
      (Except.error (), s', [StorageCall.setCall s.id s.data s.max_age])
  else
    (Except.ok (), s, [])

/-- `Session::renew`: only when `status < 2` — first the backend
`config.remove(old id)` (on failure the error propagates with the session
untouched), then the freshly generated id (`config.generate`, the `newId`
parameter) is assigned, the data cleared, and the status stored as `2`.
The dirty flag is not touched (the code clears through the raw guard). -/
def Session.renew (s : Session) (removeOk : Bool) (newId : String) :
    SessionResult × Session × List StorageCall :=
  if s.status < 2 then
    if removeOk then
      (Except.ok (), { s with id := newId, data := [], status := 2 },
        [StorageCall.removeCall s.id])
    else
      (Except.error (), s, [StorageCall.removeCall s.id])
  else
    (Except.ok (), s, [])

/-- `Session::destroy`: only when `status < 3` — backend `config.remove`
(on failure the error propagates with the session untouched), then the
status is stored as `3`. -/
def Session.destroy (s : Session) (removeOk : Bool) :
    SessionResult × Session × List StorageCall :=
  if s.status < 3 then
    if removeOk then
      (Except.ok (), { s with status := 3 }, [StorageCall.removeCall s.id])
    else
      (Except.error (), s, [StorageCall.removeCall s.id])
  else
    (Except.ok (), s, [])

/-- The atomic `compare_and_swap(0, 1, SeqCst)` on the status cell: returns the
new cell content and whether this caller won the swap (observed `0`). -/
def cas01 (st : Nat) : Nat × Bool :=
  if st = 0 then (1, true) else (st, false)

/-- Two concurrent `save()` calls on one session, thread A and thread B: each
performs its atomic compare-and-swap *before* its store call, and issues the
backend write iff its swap won.  The status cell changes only through the two
swaps, which are totally ordered; `aFirst` is the order the scheduler chose.
Returns (final status, thread A wrote, thread B wrote). -/
def twoConcurrentSaves (aFirst : Bool) (st : Nat) : Nat × Bool × Bool :=
  if aFirst then
    let ra := cas01 st
    let rb := cas01 ra.1
    (rb.1, ra.2, rb.2)
  else
    let rb := cas01 st
    let ra := cas01 rb.1
    (ra.1, ra.2, rb.2)

/-- Number of backend writes issued by the two racing `save()` calls. -/
def twoConcurrentSaveWrites (aFirst : Bool) (st : Nat) : Nat :=
  let r := twoConcurrentSaves aFirst st
  (cond r.2.1 1 0) + (cond r.2.2 1 0)

/-- Modelled from the spec: the storage-layer session status (`SessionStatus`
of the older crate layout, referred to by `src/memory_store.rs` but not under
the sources).  §4.3: a fresh session carries the initial `Created` status; a
loaded one `Existed`. -/
inductive SessionStatus where
  | Created : SessionStatus
  | Existed : SessionStatus
deriving DecidableEq

/-- Modelled from the spec: the observable state of the storage-layer session
built by `MemoryStore::get` (its `SessionBeer` — id, status, state — is not
under the sources).  A fresh session has empty state, status `Created`, and a
lazily assigned id, modelled as `""`. -/
structure StoreSession where
  id : String
  status : SessionStatus
  state : Data

/-- `MemoryStore::get` (`src/memory_store.rs`): build a fresh session; if the
id fails verification (`verify_sid`, delegated to an external verifier —
a parameter here) return it; if the map contains the id, populate state,
status `Existed` and the id from the store; otherwise return the fresh
session.  Never fails. -/
def MemoryStore.get (store : List (String × Data)) (verify : String → Bool)
    (sid : String) : StoreSession :=
  let session : StoreSession := { id := "", status := SessionStatus.Created, state := [] }
  if verify sid = false then
    session
  else if (alookup store sid).isSome then
    match alookup store sid with
    | some data => { session with state := data, status := SessionStatus.Existed, id := sid }
    | none => session
  else
    session

/-- One step of a client interaction with a session's data container, at the
value level: a successful typed `set` stores its encoded value, so a CRUD
history is a list of these. `getNop` records a `get`, which does not change
the state. -/
inductive Op where
  | setV (k : String) (v : Value) : Op
  | rm (k : String) : Op
  | clr : Op
  | getNop : Op

/-- Apply one operation to the session, through the session's own CRUD
surface (`valueCodec` is the identity codec of `Value`). -/
def Op.apply (s : Session) : Op → Session
  | Op.setV k v => (Session.set valueCodec s k v).2
  | Op.rm k => (Session.remove valueCodec s k).2
  | Op.clr => Session.clear s
  | Op.getNop => s

/-- Apply a sequence of operations in order. -/
def applyOps (ops : List Op) (s : Session) : Session :=
  ops.foldl Op.apply s

/-- Whether an operation writes the binding of key `k`:
a `set` or `remove` of `k` itself, or a `clear`. -/
def Op.touches (k : String) : Op → Prop
  | Op.setV k' _ => k' = k
  | Op.rm k' => k' = k
  | Op.clr => True
  | Op.getNop => False

/-- The spec's §8 scenario, step 0: a fresh Created session with id `trek-1`. -/
def trekSession0 : Session := Session.new "trek-1" 0 Config.default24h

/-- Scenario step 1: after `set("counter", 5)`. -/
def trekSession1 : Session := (Session.set intCodec trekSession0 "counter" 5).2

/-- Scenario step 2: after `set("counter", 6)`. -/
def trekSession2 : Session := (Session.set intCodec trekSession1 "counter" 6).2

/-- Scenario step 3: after `remove("counter")`. -/
def trekSession3 : Session := (Session.remove intCodec trekSession2 "counter").2

/-! ## Lookup lemmas for the data container -/

theorem alookup_append {α : Type} (d1 d2 : List (String × α)) (k : String) :
    alookup (d1 ++ d2) k =
      match alookup d1 k with
      | some v => some v
      | none => alookup d2 k := by
  induction d1 with
  | nil => rfl
  | cons p rest ih =>
    by_cases h : p.1 = k
    · simp [alookup, h]
    · simp [alookup, h, ih]

theorem alookup_eraseAll_self {α : Type} (d : List (String × α)) (k : String) :
    alookup (eraseAll d k) k = none := by
  induction d with
  | nil => rfl
  | cons p rest ih =>
    by_cases h : p.1 = k
    · simp [eraseAll, h, ih]
    · simp [eraseAll, h, alookup, ih]

theorem alookup_eraseAll_ne {α : Type} (d : List (String × α)) (k k' : String)
    (h : k ≠ k') : alookup (eraseAll d k') k = alookup d k := by
  induction d with
  | nil => rfl
  | cons p rest ih =>
    by_cases hp : p.1 = k'
    · have hpk : p.1 ≠ k := by rw [hp]; exact Ne.symm h
      simp [eraseAll, hp, alookup, hpk, Ne.symm h, ih]
    · by_cases hk : p.1 = k
      · simp [eraseAll, hp, alookup, hk, h]
      · simp [eraseAll, hp, alookup, hk, ih]

theorem alookup_insert_self (d : Data) (k : String) (v : Value) :
    alookup (Data.insert d k v).2 k = some v := by
  simp [Data.insert, alookup_append, alookup_eraseAll_self, alookup]

theorem alookup_insert_ne (d : Data) (k k' : String) (v : Value) (h : k ≠ k') :
    alookup (Data.insert d k' v).2 k = alookup d k := by
  simp only [Data.insert, alookup_append, alookup_eraseAll_ne d k k' h]
  cases alookup d k with
  | none => simp [alookup, Ne.symm h]
  | some w => simp

theorem alookup_erase_self (d : Data) (k : String) :
    alookup (Data.eraseKey d k).2 k = none :=
  alookup_eraseAll_self d k

theorem alookup_erase_ne (d : Data) (k k' : String) (h : k ≠ k') :
    alookup (Data.eraseKey d k').2 k = alookup d k :=
  alookup_eraseAll_ne d k k' h

/-! ## Claim theorems -/

/-- C1: for every Session with status Created (0), `save()` swaps the status to
Saved (1) by a single atomic compare-and-exchange before the store call and
issues exactly one backend write; a `save()` on status Saved or later does no
backend write and returns success; under any interleaving of two racing
`save()` calls the Created-to-Saved transition happens exactly once and
exactly one backend write is issued. -/
theorem save_created_exactly_once (s : Session) (storeOk : Bool) (h : s.status = 0) :
    (Session.save s storeOk).2.2 = [StorageCall.setCall s.id s.data s.max_age] ∧
    (Session.save s storeOk).2.1.status = 1 ∧
    (∀ t ok, t.status ≠ 0 → Session.save t ok = (Except.ok (), t, [])) ∧
    (∀ ok, Session.save (Session.save s storeOk).2.1 ok =
      (Except.ok (), (Session.save s storeOk).2.1, [])) ∧
    (∀ aFirst, twoConcurrentSaveWrites aFirst 0 = 1 ∧
      (twoConcurrentSaves aFirst 0).1 = 1) := by
  have hnot : ∀ t ok, t.status ≠ 0 → Session.save t ok = (Except.ok (), t, []) := by
    intro t ok ht
    simp [Session.save, ht]
  have hsave2 : (Session.save s storeOk).2.1 = { s with status := 1 } := by
    cases storeOk <;> simp [Session.save, h]
  refine ⟨?_, ?_, hnot, ?_, ?_⟩
  · cases storeOk <;> simp [Session.save, h]
  · rw [hsave2]
  · intro ok
    apply hnot
    rw [hsave2]
    simp
  · intro aFirst
    cases aFirst <;> exact ⟨rfl, rfl⟩

/-- Witness for C1 at a concrete fresh session. -/
theorem save_created_exactly_once_witness :
    (Session.save (Session.new "sid" 0 Config.default24h) true).2.1.status = 1 :=
  (save_created_exactly_once (Session.new "sid" 0 Config.default24h) true rfl).2.1

/-- C2: on a Created session, a `save()` whose backend write fails still
advances the status to Saved (never rolled back), propagates the error to the
caller, and leaves the in-memory data (and id) unchanged. -/
theorem save_error_status_rolls_forward (s : Session) (h : s.status = 0) :
    (Session.save s false).1 = Except.error () ∧
    (Session.save s false).2.1.status = 1 ∧
    (Session.save s false).2.1.data = s.data ∧
    (Session.save s false).2.1.id = s.id := by
  simp [Session.save, h]

/-- Witness for C2 at a concrete fresh session. -/
theorem save_error_status_rolls_forward_witness :
    (Session.save (Session.new "sid" 0 Config.default24h) false).1 = Except.error () :=
  (save_error_status_rolls_forward (Session.new "sid" 0 Config.default24h) rfl).1

/-- C3: `renew()` on a session with status Created or Saved (status < 2)
removes the old id from Storage, assigns the freshly generated id (distinct
from the old one by the generator's contract), clears the data, sets the
status to Renewed (2), and succeeds; on status Renewed or Destroyed it is a
no-op with no Storage call that returns success. -/
theorem renew_fresh_id_and_noop (s : Session) (newId : String) (h : s.status < 2)
    (hfresh : newId ≠ s.id) :
    (Session.renew s true newId).1 = Except.ok () ∧
    (Session.renew s true newId).2.1.id = newId ∧
    (Session.renew s true newId).2.1.id ≠ s.id ∧
    (Session.renew s true newId).2.1.data = [] ∧
    (Session.renew s true newId).2.1.status = 2 ∧
    (Session.renew s true newId).2.2 = [StorageCall.removeCall s.id] ∧
    (∀ t ok nid, 2 ≤ t.status → Session.renew t ok nid = (Except.ok (), t, [])) := by
  have hnoop : ∀ t ok nid, 2 ≤ t.status →
      Session.renew t ok nid = (Except.ok (), t, []) := by
    intro t ok nid hge
    simp [Session.renew, Nat.not_lt.mpr hge]
  refine ⟨?_, ?_, ?_, ?_, ?_, ?_, hnoop⟩ <;> simp [Session.renew, h, hfresh]

/-- Witness for C3 at a concrete fresh session and fresh id. -/
theorem renew_fresh_id_and_noop_witness :
    (Session.renew (Session.new "old" 0 Config.default24h) true "fresh").2.1.id =
      "fresh" :=
  (renew_fresh_id_and_noop (Session.new "old" 0 Config.default24h) "fresh"
    (by decide) (by decide)).2.1

/-- C4: Destroyed (3) is a sticky terminal state: on a destroyed session,
`save()`, `renew()` and `destroy()` all leave the session (hence the status)
unchanged, issue no Storage call, and return success. -/
theorem destroyed_is_sticky (s : Session) (h : s.status = 3) :
    (∀ ok, Session.save s ok = (Except.ok (), s, [])) ∧
    (∀ ok nid, Session.renew s ok nid = (Except.ok (), s, [])) ∧
    (∀ ok, Session.destroy s ok = (Except.ok (), s, [])) ∧
    s.status = 3 := by
  refine ⟨?_, ?_, ?_, h⟩
  · intro ok
    simp [Session.save, h]
  · intro ok nid
    simp [Session.renew, h]
  · intro ok
    simp [Session.destroy, h]

/-- Witness for C4 at a concrete destroyed session. -/
theorem destroyed_is_sticky_witness :
    Session.save (Session.new "x" 3 Config.default24h) true =
      (Except.ok (), Session.new "x" 3 Config.default24h, []) :=
  (destroyed_is_sticky (Session.new "x" 3 Config.default24h) rfl).1 true

/-- C5 as stated is false: `remove` of an absent key must, per the claim, set
the dirty flag, but the code's `?` returns before `data_status.store(true)` —
on a fresh session `remove "missing"` leaves the flag `false`; and the flag is
not "mutated since the last save": after a `set` and a successful `save` the
flag is still `true` though nothing was mutated since that save. -/
theorem dirty_flag_counterexample :
    (Session.remove intCodec (Session.new "a" 0 Config.default24h)
      "missing").2.data_status = false ∧
    (Session.save (Session.set intCodec (Session.new "a" 0 Config.default24h)
      "k" 5).2 true).2.1.data_status = true := by
  constructor <;> rfl

/-- C5 amended: a `set` whose encode succeeds, a `remove` of a present key,
and `clear` set the dirty flag; a `remove` of an absent key (or a `set` whose
encode fails) returns `none` and leaves the whole session — flag included —
unchanged; `save` never resets the flag, so the flag means "mutated since the
session was created", not "since the last save". -/
theorem dirty_flag_amended {T : Type} (c : Codec T) (s : Session) (k : String)
    (v : T) (ev : Value) :
    (c.enc v = some ev → (Session.set c s k v).2.data_status = true) ∧
    (c.enc v = none → Session.set c s k v = (none, s)) ∧
    (∀ w, alookup s.data k = some w → (Session.remove c s k).2.data_status = true) ∧
    (alookup s.data k = none → Session.remove c s k = (none, s)) ∧
    (Session.clear s).data_status = true ∧
    (∀ ok, (Session.save s ok).2.1.data_status = s.data_status) := by
  refine ⟨?_, ?_, ?_, ?_, rfl, ?_⟩
  · intro he
    simp [Session.set, he]
  · intro he
    simp [Session.set, he]
  · intro w hw
    simp [Session.remove, Data.eraseKey, hw]
  · intro hw
    simp [Session.remove, Data.eraseKey, hw]
  · intro ok
    by_cases h0 : s.status = 0 <;> cases ok <;> simp [Session.save, h0]

/-- Witness for the amended C5 at a concrete set. -/
theorem dirty_flag_amended_witness :
    (Session.set intCodec (Session.new "a" 0 Config.default24h) "k" 5).2.data_status =
      true :=
  (dirty_flag_amended intCodec (Session.new "a" 0 Config.default24h) "k" 5
    (Value.num 5)).1 rfl

/-- C6: `get`, `set` and `remove` never raise on an encode/decode failure —
a stored value that fails to decode surfaces as `none` from `get` (exactly as
if the key were absent) and as `none` from `remove`'s return value, and an
encode failure during `set` yields a `none` return with the session
untouched, not an error. -/
theorem decode_failure_is_not_found {T : Type} (c : Codec T) (s : Session)
    (k : String) (w : Value) (v : T)
    (hw : alookup s.data k = some w) (hdec : c.dec w = none) :
    Session.get c s k = none ∧
    (Session.remove c s k).1 = none ∧
    (∀ t, alookup t.data k = none → Session.get c t k = none) ∧
    (c.enc v = none → Session.set c s k v = (none, s)) := by
  refine ⟨?_, ?_, ?_, ?_⟩
  · simp [Session.get, hw, hdec]
  · simp [Session.remove, Data.eraseKey, hw, hdec]
  · intro t ht
    simp [Session.get, ht]
  · intro he
    simp [Session.set, he]

/-- Witness for C6: a stored string fails to decode as an integer and `get`
returns `none`. -/
theorem decode_failure_is_not_found_witness :
    Session.get intCodec
      (Session.set valueCodec (Session.new "a" 0 Config.default24h) "k"
        (Value.str "x")).2 "k" = none :=
  (decode_failure_is_not_found intCodec
    (Session.set valueCodec (Session.new "a" 0 Config.default24h) "k"
      (Value.str "x")).2 "k" (Value.str "x") 0 rfl rfl).1

/-- C7: `MemoryStore::get` never fails — an unverified or absent id yields a
fresh session with empty data and the initial Created status, and a present
id yields a session carrying the stored data, status Existed, and that id. -/
theorem memory_store_get_total (store : List (String × Data))
    (verify : String → Bool) (sid : String) (d : Data) :
    (verify sid = false → MemoryStore.get store verify sid =
      { id := "", status := SessionStatus.Created, state := [] }) ∧
    (alookup store sid = none → MemoryStore.get store verify sid =
      { id := "", status := SessionStatus.Created, state := [] }) ∧
    (verify sid = true → alookup store sid = some d →
      MemoryStore.get store verify sid =
        { id := sid, status := SessionStatus.Existed, state := d }) := by
  refine ⟨?_, ?_, ?_⟩
  · intro hv
    simp [MemoryStore.get, hv]
  · intro ha
    by_cases hv : verify sid = false
    · simp [MemoryStore.get, hv]
    · simp [MemoryStore.get, hv, ha]
  · intro hv hl
    simp [MemoryStore.get, hv, hl]

/-- Witness for C7: loading a present id returns its stored state. -/
theorem memory_store_get_total_witness :
    MemoryStore.get [("s1", [("k", Value.null)])] (fun _ => true) "s1" =
      { id := "s1", status := SessionStatus.Existed, state := [("k", Value.null)] } :=
  (memory_store_get_total [("s1", [("k", Value.null)])] (fun _ => true) "s1"
    [("k", Value.null)]).2.2 rfl rfl

/-- C8 as stated is false: the claim only excludes an intervening `remove(k)`
or `clear()`, but an intervening second `set(k, ·)` also overwrites the
binding — after `set("k", 5)` then `set("k", 6)` (no remove or clear in
between), `get("k")` returns `some 6`, not `some 5` as the claim instance for
the first set demands. -/
theorem roundtrip_counterexample :
    Session.get intCodec (Session.set intCodec (Session.set intCodec
      (Session.new "t" 0 Config.default24h) "k" 5).2 "k" 6).2 "k" = some 6 ∧
    Session.get intCodec (Session.set intCodec (Session.set intCodec
      (Session.new "t" 0 Config.default24h) "k" 5).2 "k" 6).2 "k" ≠ some 5 := by
  decide

/-- An operation that does not write key `k` preserves `k`'s binding. -/
theorem alookup_apply_untouched (k : String) (op : Op) (s : Session)
    (h : ¬ Op.touches k op) :
    alookup (Op.apply s op).data k = alookup s.data k := by
  cases op with
  | setV k' v =>
    simp only [Op.touches] at h
    have hk : k ≠ k' := fun he => h he.symm
    simp [Op.apply, Session.set, valueCodec, alookup_insert_ne s.data k k' v hk]
  | rm k' =>
    simp only [Op.touches] at h
    have hk : k ≠ k' := fun he => h he.symm
    cases hl : alookup s.data k' with
    | none => simp [Op.apply, Session.remove, Data.eraseKey, hl]
    | some pv =>
      simp [Op.apply, Session.remove, Data.eraseKey, hl,
        alookup_eraseAll_ne s.data k k' hk]
  | clr =>
    simp only [Op.touches] at h
    exact absurd trivial h
  | getNop => rfl

/-- A sequence of operations none of which writes key `k` preserves `k`'s
binding. -/
theorem alookup_applyOps_untouched (k : String) (ops : List Op) (s : Session)
    (h : ∀ op ∈ ops, ¬ Op.touches k op) :
    alookup (applyOps ops s).data k = alookup s.data k := by
  revert h
  induction ops generalizing s with
  | nil => intro _; rfl
  | cons op rest ih =>
    intro h
    have h1 : ¬ Op.touches k op := h op (List.mem_cons_self op rest)
    have h2 : ∀ op' ∈ rest, ¬ Op.touches k op' :=
      fun op' hm => h op' (List.mem_cons_of_mem op hm)
    calc alookup (applyOps (op :: rest) s).data k
        = alookup (applyOps rest (Op.apply s op)).data k := rfl
      _ = alookup (Op.apply s op).data k := ih (Op.apply s op) h2
      _ = alookup s.data k := alookup_apply_untouched k op s h1

/-- C8 amended: after `set(k, v)` (with `v` encodable and its encoding
decoding back to `v`), and any further operations none of which writes `k` —
no `set(k, ·)`, no `remove(k)`, no `clear()` — `get(k)` returns `some v`,
the value decoded back losslessly. -/
theorem roundtrip_amended {T : Type} (c : Codec T) (s : Session) (k : String)
    (v : T) (ev : Value) (ops : List Op)
    (henc : c.enc v = some ev) (hdec : c.dec ev = some v)
    (hops : ∀ op ∈ ops, ¬ Op.touches k op) :
    Session.get c (applyOps ops (Session.set c s k v).2) k = some v := by
  have hbase : alookup (Session.set c s k v).2.data k = some ev := by
    simp [Session.set, henc, alookup_insert_self]
  simp only [Session.get]
  rw [alookup_applyOps_untouched k ops _ hops, hbase]
  simp [hdec]

/-- Witness for the amended C8: a set of another key intervenes harmlessly. -/
theorem roundtrip_amended_witness :
    Session.get intCodec (applyOps [Op.setV "other" Value.null]
      (Session.set intCodec (Session.new "t" 0 Config.default24h) "k" 7).2) "k" =
      some 7 :=
  roundtrip_amended intCodec (Session.new "t" 0 Config.default24h) "k" 7
    (Value.num 7) [Op.setV "other" Value.null] rfl rfl (by
      intro op hop
      rw [List.mem_singleton] at hop
      subst hop
      simp only [Op.touches]
      decide)

/-- C9: `set(k, v)` returns the previous binding typed-decoded (or `none`),
`remove(k)` returns the last-set value (or `none`) and a subsequent `get(k)`
is `none`; and the spec's §8 scenario on session `trek-1` evaluates exactly
as claimed. -/
theorem set_remove_previous_values {T : Type} (c : Codec T) (s : Session)
    (k : String) (v : T) (ev : Value) (henc : c.enc v = some ev) :
    (Session.set c s k v).1 = (alookup s.data k).bind c.dec ∧
    (Session.remove c s k).1 = (alookup s.data k).bind c.dec ∧
    Session.get c (Session.remove c s k).2 k = none ∧
    (Session.set intCodec trekSession0 "counter" 5).1 = none ∧
    (Session.set intCodec trekSession1 "counter" 6).1 = some 5 ∧
    Session.get intCodec trekSession2 "counter" = some 6 ∧
    (Session.remove intCodec trekSession2 "counter").1 = some 6 ∧
    Session.get intCodec trekSession3 "counter" = none := by
  refine ⟨?_, ?_, ?_, by decide, by decide, by decide, by decide, by decide⟩
  · simp [Session.set, henc, Data.insert]
  · cases hl : alookup s.data k <;> simp [Session.remove, Data.eraseKey, hl]
  · cases hl : alookup s.data k with
    | none => simp [Session.remove, Session.get, Data.eraseKey, hl]
    | some pv =>
      simp [Session.remove, Session.get, Data.eraseKey, hl, alookup_eraseAll_self]

/-- Witness for C9 at the scenario's first step. -/
theorem set_remove_previous_values_witness :
    (Session.set intCodec trekSession0 "counter" 5).1 = none :=
  (set_remove_previous_values intCodec trekSession0 "counter" 5 (Value.num 5)
    rfl).2.2.2.1

/-- C10 (implicit): when the backend remove fails during `renew()` (status
< 2) or `destroy()` (status < 3), the error propagates and the session —
status, id, and data — is completely unchanged. -/
theorem renew_destroy_error_unchanged (s : Session) (newId : String) :
    (s.status < 2 → Session.renew s false newId =
      (Except.error (), s, [StorageCall.removeCall s.id])) ∧
    (s.status < 3 → Session.destroy s false =
      (Except.error (), s, [StorageCall.removeCall s.id])) := by
  constructor
  · intro h
    simp [Session.renew, h]
  · intro h
    simp [Session.destroy, h]

/-- Witness for C10 at a concrete fresh session. -/
theorem renew_destroy_error_unchanged_witness :
    Session.renew (Session.new "sid" 0 Config.default24h) false "new" =
      (Except.error (), Session.new "sid" 0 Config.default24h,
        [StorageCall.removeCall "sid"]) :=
  (renew_destroy_error_unchanged (Session.new "sid" 0 Config.default24h) "new").1
    (by decide)
